import Mathlib

/-!
Shallow embedding of the KC Events Discord OAuth bridge.

The repository contains three route-handler variants of the same flow:

* `p1_` definitions embed the nonce-store CommonJS variant
  (src/unnamed/part_001): link tickets live in the `linkStates`
  collection, the start route checks existence, the used flag, and a
  15 minute expiry window; the callback route checks existence and the
  used flag, checks the HTTP status of the token exchange and of the
  identity fetch, finds or creates the user record, marks the ticket
  used, writes the Realtime Database mapping inside an inner try/catch
  whose errors are swallowed, and issues a custom token with the
  discord id as a claim.

* `p0_` definitions embed the ESM variant (src/unnamed/part_000):
  tickets live in `discordLinkStates`, the start route checks only
  existence and the used flag (no expiry), the callback route checks
  neither the token-exchange nor the identity-fetch HTTP status, merges
  three discord fields into the user record, marks the ticket used, and
  issues a custom token without claims.  It maintains no mapping store.

* `idx_` definitions embed the format-only variant (src/index.cjs):
  no ticket store at all; the state parameter is expected to be a
  17 to 20 digit discord snowflake; the callback prefers the state
  value over the fetched identity id as the mapping key and token
  claim.

External HTTP calls (the Discord token and identity endpoints) and the
outcome of each persistence write are modelled by an `Oracle` record
giving the outcome of each call; an oracle field equal to `none` (for
the two fetches) stands for the fetch promise rejecting, which the
source catches in the surrounding try/catch.  Stores are association
lists keyed by strings; query-string URL encoding and the signing
internals of `createCustomToken` are out of scope of the specification
and are modelled by plain string concatenation and a transparent
`Credential` record.  Environment variables are modelled as an always
configured `Env` record.
-/

/-- JavaScript truthiness of a possibly absent query-string value:
`undefined` and the empty string are falsy. -/
def jsTruthy : Option String → Bool
  | none => false
  | some s => !(s == "")

/-- JavaScript `String(x)` applied to a possibly undefined value. -/
def jsString : Option String → String
  | none => "undefined"
  | some s => s

/-- JavaScript `String.prototype.trim`: strip leading and trailing
whitespace.  Defined on the character list so that concrete instances
reduce inside the kernel. -/
def jsTrim (s : String) : String :=
  String.mk (((s.toList.dropWhile Char.isWhitespace).reverse.dropWhile
    Char.isWhitespace).reverse)

/-- The 17 to 20 digit discord snowflake format check, the regular
expression `^\d{17,20}$` of the source. -/
def isSnowflake (s : String) : Bool :=
  decide (17 ≤ s.length) && decide (s.length ≤ 20) &&
    s.toList.all (fun c => c.isDigit)

/-- A link ticket document (`linkStates` respectively
`discordLinkStates` collection). -/
structure LinkTicket where
  createdAt : Int
  used : Bool
  issuerUserId : Option String
deriving Repr, DecidableEq

/-- A `users/{uid}` document.  Firestore documents are open maps; the
embedding keeps the fields this flow reads or writes, with
`displayName`, `username` and `joined` standing for the pre-existing
application fields that the update path must not touch. -/
structure AppUser where
  displayName : Option String
  username : Option String
  joined : Option Int
  discordId : Option String
  discordUsername : Option String
  discordAvatarURL : Option String
deriving Repr, DecidableEq

/-- A `discordLinks/{discordId}` Realtime Database record. -/
structure MappingEntry where
  uid : String
  linkedAt : Int
deriving Repr, DecidableEq

abbrev TicketStore := List (String × LinkTicket)
abbrev UserStore := List (String × AppUser)
abbrev MappingStore := List (String × MappingEntry)
abbrev MirrorStore := List (String × String)

/-- First-match lookup in an association list (document get / limit 1
query result). -/
def alGet {α : Type} (st : List (String × α)) (k : String) : Option α :=
  (st.find? (fun p => p.1 == k)).map Prod.snd

/-- Upsert into an association list: replace the first entry with the
given key, or append a fresh entry. -/
def alSet {α : Type} (st : List (String × α)) (k : String) (v : α) :
    List (String × α) :=
  match st with
  | [] => [(k, v)]
  | (k1, v1) :: rest =>
    if k1 == k then (k, v) :: rest else (k1, v1) :: alSet rest k v

/-- Update the first entry with the given key, leaving the list
unchanged when the key is absent. -/
def alUpdate {α : Type} (st : List (String × α)) (k : String) (f : α → α) :
    List (String × α) :=
  match st with
  | [] => []
  | (k1, v1) :: rest =>
    if k1 == k then (k1, f v1) :: rest else (k1, v1) :: alUpdate rest k f

/-- Number of entries carrying a given key. -/
def countKey {α : Type} (st : List (String × α)) (k : String) : Nat :=
  (st.filter (fun p => p.1 == k)).length

/-- The configuration read from the environment. -/
structure Env where
  clientId : String
  redirectUri : String
  successUrl : String
  errorUrl : String
deriving Repr, DecidableEq

/-- Outcome of the token-exchange POST: the HTTP status flag
(`res.ok`) and the `access_token` field of the parsed JSON body. -/
structure TokenResp where
  ok : Bool
  accessToken : Option String
deriving Repr, DecidableEq

/-- Outcome of the identity fetch: the HTTP status flag and the
fields of the parsed JSON body, each possibly absent. -/
structure UserResp where
  ok : Bool
  idField : Option String
  usernameField : Option String
  discriminatorField : Option String
  avatarField : Option String
deriving Repr, DecidableEq

/-- One callback invocation's view of the external world: the two
fetch outcomes (`none` means the promise rejected) and whether each
persistence write completes, plus the fresh document id produced by
`collection.doc()` and the clock value `Date.now()`. -/
structure Oracle where
  tokenResp : Option TokenResp
  userResp : Option UserResp
  userWriteOk : Bool
  markUsedOk : Bool
  mappingWriteOk : Bool
  newDocId : String
  now : Int
deriving Repr, DecidableEq

/-- The custom token issued by `createCustomToken`: the uid it is
bound to and the optional discordId developer claim. -/
structure Credential where
  uid : String
  discordIdClaim : Option String
deriving Repr, DecidableEq

/-- The opaque signed token string attached to the success redirect. -/
def tokenString (c : Credential) : String :=
  "ctok." ++ c.uid ++ "." ++ c.discordIdClaim.getD ""

/-- An HTTP response emitted by a handler: a redirect or a plain
status with a message body. -/
inductive HttpResponse where
  | redirect (url : String)
  | status (code : Nat) (msg : String)
deriving Repr, DecidableEq

/-- The full effect of one callback invocation: the response, the
resulting stores, the issued credential if any, and whether the
token-exchange and identity-fetch network calls were performed. -/
structure CallbackResult where
  response : HttpResponse
  tickets : TicketStore
  users : UserStore
  mapping : MappingStore
  mirror : MirrorStore
  credential : Option Credential
  tokenCalled : Bool
  identityCalled : Bool
deriving Repr, DecidableEq

/-- Result of a request that performed no external call and changed no
store. -/
def CallbackResult.noCalls (resp : HttpResponse) (tickets : TicketStore)
    (users : UserStore) (mapping : MappingStore) (mirror : MirrorStore) :
    CallbackResult :=
  { response := resp
    tickets := tickets
    users := users
    mapping := mapping
    mirror := mirror
    credential := none
    tokenCalled := false
    identityCalled := false }

/-- Result of a failed request: the catch-all redirect to the
configured error destination, no credential. -/
def CallbackResult.mkErr (env : Env) (tickets : TicketStore)
    (users : UserStore) (mapping : MappingStore) (mirror : MirrorStore)
    (tc ic : Bool) : CallbackResult :=
  { response := .redirect env.errorUrl
    tickets := tickets
    users := users
    mapping := mapping
    mirror := mirror
    credential := none
    tokenCalled := tc
    identityCalled := ic }

/-- The authorize URL built by the nonce-store variant's start route. -/
def p1_authUrl (env : Env) (s : String) : String :=
  "https://discord.com/api/oauth2/authorize?client_id=" ++ env.clientId ++
    "&redirect_uri=" ++ env.redirectUri ++
    "&response_type=code&scope=identify&state=" ++ s

/-- The authorize URL built by the ESM variant's start route. -/
def p0_authUrl (env : Env) (s : String) : String :=
  "https://discord.com/oauth2/authorize?client_id=" ++ env.clientId ++
    "&response_type=code&scope=identify&state=" ++ s ++
    "&redirect_uri=" ++ env.redirectUri

/-- The authorize URL built by the format-only variant's start route. -/
def idx_authUrl (env : Env) (s : String) : String :=
  "https://discord.com/api/oauth2/authorize?client_id=" ++ env.clientId ++
    "&redirect_uri=" ++ env.redirectUri ++
    "&response_type=code&scope=identify&state=" ++ s ++ "&prompt=consent"

/-- The avatar URL computed from the fetched profile: the JavaScript
conditional `avatarHash ? cdnUrl : null`, where an empty hash is
falsy. -/
def avatarUrlFor (did : String) (avatar : Option String) : Option String :=
  match avatar with
  | some h =>
    if h == "" then none
    else some ("https://cdn.discordapp.com/avatars/" ++ did ++ "/" ++ h ++ ".png")
  | none => none

/-- The `update` call of the nonce-store and format-only variants:
overwrite exactly the three mirrored discord fields of an existing
record. -/
def applyDiscordUpdate (rec : AppUser) (did : String) (uname : Option String)
    (av : Option String) : AppUser :=
  { rec with
    discordId := some did
    discordUsername := uname
    discordAvatarURL := av }

/-- The document written by the create path of the nonce-store and
format-only variants. -/
def newDiscordUser (did : String) (uname : Option String) (av : Option String)
    (now : Int) : AppUser :=
  { displayName := uname
    username := uname
    joined := some now
    discordId := some did
    discordUsername := uname
    discordAvatarURL := av }

/-- The `set(..., merge true)` call of the ESM variant applied to an
existing record: overwrite exactly the three discord fields. -/
def p0_applyMerge (rec : AppUser) (did unameDisc : String)
    (av : Option String) : AppUser :=
  { rec with
    discordId := some did
    discordUsername := some unameDisc
    discordAvatarURL := av }

/-- The `set(..., merge true)` call of the ESM variant applied to a
fresh document: only the three discord fields are present. -/
def p0_freshMerge (did unameDisc : String) (av : Option String) : AppUser :=
  { displayName := none
    username := none
    joined := none
    discordId := some did
    discordUsername := some unameDisc
    discordAvatarURL := av }

/-- GET /oauth/discord/start of the nonce-store variant: existence,
used flag and the 15 minute expiry window are all checked before the
redirect to the authorize endpoint. -/
def p1_start (env : Env) (now : Int) (tickets : TicketStore)
    (state : Option String) : HttpResponse :=
  if !(jsTruthy state) then .status 400 "Missing state"
  else
    match alGet tickets (state.getD "") with
    | none => .status 400 "Unknown state"
    | some t =>
      if t.used || decide (15 * 60 * 1000 < now - t.createdAt) then
        .status 400 "State expired or already used"
      else .redirect (p1_authUrl env (state.getD ""))

/-- GET /oauth/discord/start of the ESM variant: only existence and
the used flag are checked.  The handler reads no clock, so the current
time parameter is unused; it is kept to state age-related claims. -/
def p0_start (env : Env) (_now : Int) (tickets : TicketStore)
    (state : Option String) : HttpResponse :=
  if !(jsTruthy state) then .status 400 "Missing state"
  else
    match alGet tickets (state.getD "") with
    | none => .redirect env.errorUrl
    | some t =>
      if t.used then .redirect env.errorUrl
      else .redirect (p0_authUrl env (state.getD ""))

/-- GET /oauth/discord/start of the format-only variant: the state is
only checked against the snowflake format. -/
def idx_start (env : Env) (state : Option String) : HttpResponse :=
  let s := jsTrim (state.getD "")
  if !(isSnowflake s) then .status 400 "Bad state"
  else .redirect (idx_authUrl env s)

/-- Tail of the nonce-store callback after the user record write: mark
the ticket used, attempt the Realtime Database mapping writes inside
the inner try/catch that swallows their errors, issue the custom token
and redirect to the success URL. -/
def p1_afterUserWrite (env : Env) (o : Oracle) (tickets : TicketStore)
    (users : UserStore) (mapping : MappingStore) (mirror : MirrorStore)
    (stateS did uid : String) : CallbackResult :=
  if !o.markUsedOk then .mkErr env tickets users mapping mirror true true
  else
    let tickets2 := alUpdate tickets stateS (fun t => { t with used := true })
    let mapping2 :=
      if o.mappingWriteOk then alSet mapping did ⟨uid, o.now⟩ else mapping
    let mirror2 :=
      if o.mappingWriteOk then alSet mirror uid did else mirror
    let cred : Credential := ⟨uid, some did⟩
    { response := .redirect (env.successUrl ++ "?customToken=" ++ tokenString cred)
      tickets := tickets2
      users := users
      mapping := mapping2
      mirror := mirror2
      credential := some cred
      tokenCalled := true
      identityCalled := true }

/-- Middle of the nonce-store callback after a successful identity
fetch: find or create the user record, then continue with the marked
ticket and the mapping writes. -/
def p1_afterFetch (env : Env) (o : Oracle) (tickets : TicketStore)
    (users : UserStore) (mapping : MappingStore) (mirror : MirrorStore)
    (stateS : String) (ur : UserResp) : CallbackResult :=
  let did := jsString ur.idField
  let av := avatarUrlFor did ur.avatarField
  let found := users.find? (fun p => p.2.discordId == some did)
  let uid :=
    match found with
    | some pr => pr.1
    | none => o.newDocId
  let users2 :=
    match found with
    | some pr => alSet users pr.1 (applyDiscordUpdate pr.2 did ur.usernameField av)
    | none => alSet users o.newDocId (newDiscordUser did ur.usernameField av o.now)
  if !o.userWriteOk then .mkErr env tickets users mapping mirror true true
  else p1_afterUserWrite env o tickets users2 mapping mirror stateS did uid

/-- GET /oauth/discord/callback of the nonce-store variant. -/
def p1_callback (env : Env) (o : Oracle) (tickets : TicketStore)
    (users : UserStore) (mapping : MappingStore) (mirror : MirrorStore)
    (code state : Option String) : CallbackResult :=
  if !(jsTruthy code && jsTruthy state) then
    .noCalls (.status 400 "Missing code or state") tickets users mapping mirror
  else
    match alGet tickets (state.getD "") with
    | none =>
      .noCalls (.status 400 "Invalid or used state") tickets users mapping mirror
    | some t =>
      if t.used then
        .noCalls (.status 400 "Invalid or used state") tickets users mapping mirror
      else
        match o.tokenResp with
        | none => .mkErr env tickets users mapping mirror true false
        | some tr =>
          if !tr.ok then .mkErr env tickets users mapping mirror true false
          else
            match o.userResp with
            | none => .mkErr env tickets users mapping mirror true true
            | some ur =>
              if !ur.ok then .mkErr env tickets users mapping mirror true true
              else p1_afterFetch env o tickets users mapping mirror (state.getD "") ur

/-- Tail of the ESM callback after the merged user write: mark the
ticket used, issue the custom token (without claims) and redirect. -/
def p0_afterUserWrite (env : Env) (o : Oracle) (tickets : TicketStore)
    (users : UserStore) (mapping : MappingStore) (mirror : MirrorStore)
    (stateS uid : String) : CallbackResult :=
  if !o.markUsedOk then .mkErr env tickets users mapping mirror true true
  else
    let tickets2 := alUpdate tickets stateS (fun t => { t with used := true })
    let cred : Credential := ⟨uid, none⟩
    { response := .redirect (env.successUrl ++ "?token=" ++ tokenString cred)
      tickets := tickets2
      users := users
      mapping := mapping
      mirror := mirror
      credential := some cred
      tokenCalled := true
      identityCalled := true }

/-- GET /oauth/discord/callback of the ESM variant.  The HTTP status
of the token exchange is never checked: the (possibly absent) body
token is forwarded to the identity request, whose own outcome is again
used without a status check.  A body without an id field makes the
Firestore query throw (undefined query value), which the catch turns
into the error redirect. -/
def p0_callback (env : Env) (o : Oracle) (tickets : TicketStore)
    (users : UserStore) (mapping : MappingStore) (mirror : MirrorStore)
    (code state : Option String) : CallbackResult :=
  if !(jsTruthy code && jsTruthy state) then
    .noCalls (.redirect env.errorUrl) tickets users mapping mirror
  else
    match alGet tickets (state.getD "") with
    | none => .noCalls (.redirect env.errorUrl) tickets users mapping mirror
    | some t =>
      if t.used then
        .noCalls (.redirect env.errorUrl) tickets users mapping mirror
      else
        match o.tokenResp with
        | none => .mkErr env tickets users mapping mirror true false
        | some _tr =>
          match o.userResp with
          | none => .mkErr env tickets users mapping mirror true true
          | some ur =>
            match ur.idField with
            | none => .mkErr env tickets users mapping mirror true true
            | some did =>
              let unameDisc :=
                jsString ur.usernameField ++ "#" ++ jsString ur.discriminatorField
              let av := avatarUrlFor did ur.avatarField
              let found := users.find? (fun p => p.2.discordId == some did)
              let uid :=
                match found with
                | some pr => pr.1
                | none => o.newDocId
              let users2 :=
                match found with
                | some pr => alSet users pr.1 (p0_applyMerge pr.2 did unameDisc av)
                | none => alSet users o.newDocId (p0_freshMerge did unameDisc av)
              if !o.userWriteOk then
                .mkErr env tickets users mapping mirror true true
              else
                p0_afterUserWrite env o tickets users2 mapping mirror
                  (state.getD "") uid

/-- The discord id chosen by the format-only callback for the mapping
key and the token claim: the trimmed state when it passes the
snowflake format check, otherwise the fetched identity id (empty when
absent, matching the JavaScript fallback to the empty string). -/
def idx_chosenId (state : Option String) (ur : UserResp) : String :=
  let discordIdFromState := jsTrim (state.getD "")
  if isSnowflake discordIdFromState then discordIdFromState
  else ur.idField.getD ""

/-- Tail of the format-only callback after the user record write:
choose the mapping key (the state when it is a snowflake, otherwise
the fetched id), reject with 400 when neither passes the format check,
write the mapping and the mirror, issue the claimed token and
redirect.  The Realtime Database writes here are not wrapped in an
inner try, so their failure reaches the outer catch. -/
def idx_afterUserWrite (env : Env) (o : Oracle) (tickets : TicketStore)
    (users : UserStore) (mapping : MappingStore) (mirror : MirrorStore)
    (state : Option String) (ur : UserResp) (uid : String) : CallbackResult :=
  let discordId := idx_chosenId state ur
  if !(isSnowflake discordId) then
    { response := .status 400 "Missing discord id"
      tickets := tickets
      users := users
      mapping := mapping
      mirror := mirror
      credential := none
      tokenCalled := true
      identityCalled := true }
  else if !o.mappingWriteOk then .mkErr env tickets users mapping mirror true true
  else
    let mapping2 := alSet mapping discordId ⟨uid, o.now⟩
    let mirror2 := alSet mirror uid discordId
    let cred : Credential := ⟨uid, some discordId⟩
    { response := .redirect (env.successUrl ++ "?customToken=" ++ tokenString cred)
      tickets := tickets
      users := users
      mapping := mapping2
      mirror := mirror2
      credential := some cred
      tokenCalled := true
      identityCalled := true }

/-- GET /oauth/discord/callback of the format-only variant.  There is
no ticket store; the ticket parameter is passed through unchanged. -/
def idx_callback (env : Env) (o : Oracle) (tickets : TicketStore)
    (users : UserStore) (mapping : MappingStore) (mirror : MirrorStore)
    (code state : Option String) : CallbackResult :=
  if !(jsTruthy code && jsTruthy state) then
    .noCalls (.status 400 "Missing code or state") tickets users mapping mirror
  else
    match o.tokenResp with
    | none => .mkErr env tickets users mapping mirror true false
    | some tr =>
      if !tr.ok then .mkErr env tickets users mapping mirror true false
      else
        match o.userResp with
        | none => .mkErr env tickets users mapping mirror true true
        | some ur =>
          if !ur.ok then .mkErr env tickets users mapping mirror true true
          else
            let did := jsString ur.idField
            let av := avatarUrlFor did ur.avatarField
            let found := users.find? (fun p => p.2.discordId == some did)
            let uid :=
              match found with
              | some pr => pr.1
              | none => o.newDocId
            let users2 :=
              match found with
              | some pr => alSet users pr.1 (applyDiscordUpdate pr.2 did ur.usernameField av)
              | none => alSet users o.newDocId (newDiscordUser did ur.usernameField av o.now)
            if !o.userWriteOk then
              .mkErr env tickets users mapping mirror true true
            else
              idx_afterUserWrite env o tickets users2 mapping mirror state ur uid

/-! ### Association-list lemmas -/

theorem jsTruthy_iff {state : Option String} :
    jsTruthy state = true ↔ ∃ s, state = some s ∧ (s == "") = false := by
  cases state with
  | none => simp [jsTruthy]
  | some s =>
    simp only [jsTruthy, Bool.not_eq_true']
    constructor
    · intro h; exact ⟨s, rfl, h⟩
    · rintro ⟨s2, hs, h⟩; cases hs; exact h

theorem alGet_alSet_self {α : Type} (l : List (String × α)) (k : String)
    (v : α) : alGet (alSet l k v) k = some v := by
  induction l with
  | nil => simp [alGet, alSet]
  | cons p rest ih =>
    obtain ⟨k1, v1⟩ := p
    by_cases h : k1 = k
    · subst h
      simp [alSet, alGet]
    · have hb : (k1 == k) = false := beq_eq_false_iff_ne.mpr h
      simp only [alSet, hb, Bool.false_eq_true, if_false]
      simp only [alGet, List.find?] at ih ⊢
      simp [hb, ih]

theorem alGet_alSet_ne {α : Type} (l : List (String × α)) (k k2 : String)
    (v : α) (h : k2 ≠ k) :
    alGet (alSet l k v) k2 = alGet l k2 := by
  have hb : (k == k2) = false := beq_eq_false_iff_ne.mpr (Ne.symm h)
  induction l with
  | nil => simp [alGet, alSet, List.find?, hb]
  | cons p rest ih =>
    obtain ⟨k1, v1⟩ := p
    by_cases h1 : k1 = k
    · subst h1
      have hb2 : (k1 == k2) = false := beq_eq_false_iff_ne.mpr (Ne.symm h)
      simp [alSet, alGet, List.find?, hb, hb2]
    · have hb1 : (k1 == k) = false := beq_eq_false_iff_ne.mpr h1
      simp only [alSet, hb1, Bool.false_eq_true, if_false]
      simp only [alGet, List.find?] at ih ⊢
      cases hk : k1 == k2
      · simp [hk, ih]
      · simp [hk]

theorem alSet_keys {α : Type} (l : List (String × α)) (k : String) (v : α)
    (h : k ∈ l.map Prod.fst) :
    (alSet l k v).map Prod.fst = l.map Prod.fst := by
  induction l with
  | nil => simp at h
  | cons p rest ih =>
    obtain ⟨k1, v1⟩ := p
    by_cases h1 : k1 = k
    · subst h1
      simp [alSet]
    · have hb : (k1 == k) = false := beq_eq_false_iff_ne.mpr h1
      have hmem : k ∈ rest.map Prod.fst := by
        simp only [List.map_cons, List.mem_cons] at h
        rcases h with h | h
        · exact absurd h.symm h1
        · exact h
      simp [alSet, hb, ih hmem]

theorem alSet_fresh {α : Type} (l : List (String × α)) (k : String) (v : α)
    (h : k ∉ l.map Prod.fst) : alSet l k v = l ++ [(k, v)] := by
  induction l with
  | nil => simp [alSet]
  | cons p rest ih =>
    obtain ⟨k1, v1⟩ := p
    simp only [List.map_cons, List.mem_cons, not_or] at h
    have hb : (k1 == k) = false := beq_eq_false_iff_ne.mpr (fun he => h.1 he.symm)
    simp [alSet, hb, ih h.2]

theorem alGet_alUpdate_self {α : Type} (l : List (String × α)) (k : String)
    (f : α → α) : alGet (alUpdate l k f) k = (alGet l k).map f := by
  induction l with
  | nil => simp [alGet, alUpdate]
  | cons p rest ih =>
    obtain ⟨k1, v1⟩ := p
    by_cases h : k1 = k
    · subst h
      simp [alUpdate, alGet, List.find?]
    · have hb : (k1 == k) = false := beq_eq_false_iff_ne.mpr h
      simp only [alUpdate, hb, Bool.false_eq_true, if_false]
      simp only [alGet, List.find?] at ih ⊢
      simp [hb, ih]

theorem countKey_alSet {α : Type} (l : List (String × α)) (k : String)
    (v : α) (h : countKey l k ≤ 1) : countKey (alSet l k v) k = 1 := by
  induction l with
  | nil => simp [countKey, alSet]
  | cons p rest ih =>
    obtain ⟨k1, v1⟩ := p
    by_cases h1 : k1 = k
    · subst h1
      simp only [countKey, List.filter_cons, beq_self_eq_true, if_true,
        List.length_cons] at h
      have hrest : (rest.filter (fun p => p.1 == k1)).length = 0 := by omega
      simp only [alSet, beq_self_eq_true, if_true, countKey, List.filter_cons,
        List.length_cons]
      omega
    · have hb : (k1 == k) = false := beq_eq_false_iff_ne.mpr h1
      have hc : countKey rest k ≤ 1 := by
        simpa [countKey, List.filter_cons, hb] using h
      simp only [alSet, hb, Bool.false_eq_true, if_false]
      simpa [countKey, List.filter_cons, hb] using ih hc

/-! ### Concrete fixtures used by witnesses and counterexamples -/

/-- A configured environment. -/
def env0 : Env := ⟨"cid", "https://auth.example/cb", "https://web.example/ok", "https://web.example/err"⟩

/-- A fresh, unused ticket. -/
def ticket0 : LinkTicket := ⟨0, false, some "issuer1"⟩

/-- A ticket already marked used. -/
def ticketUsed : LinkTicket := ⟨0, true, some "issuer1"⟩

/-- A successful token-exchange response. -/
def trOK : TokenResp := ⟨true, some "atok"⟩

/-- A failed token-exchange response (non-success HTTP status). -/
def trBad : TokenResp := ⟨false, none⟩

/-- A successful identity fetch for external id 200000000000000002. -/
def urOK : UserResp := ⟨true, some "200000000000000002", some "alice", some "0", some "abc"⟩

/-- Oracle for a fully successful flow. -/
def oracle0 : Oracle := ⟨some trOK, some urOK, true, true, true, "u1", 1000⟩

/-- Oracle whose token exchange returns a non-success response while
every later step succeeds. -/
def oracleBadTok : Oracle := ⟨some trBad, some urOK, true, true, true, "u1", 1000⟩

/-- Oracle for a successful flow whose Realtime Database mapping write
fails. -/
def oracleNoMap : Oracle := ⟨some trOK, some urOK, true, true, false, "u1", 1000⟩

/-- An identity fetch whose external id differs from the fixture state
value used in the format-only counterexamples. -/
def urB : UserResp := ⟨true, some "222222222222222222", some "bob", some "7", none⟩

/-- Oracle for a successful flow fetching the `urB` identity. -/
def oracleB : Oracle := ⟨some trOK, some urB, true, true, true, "u1", 1000⟩


/-! ### Behavioural lemmas about the handlers -/

/-- The ticket check that both store-backed callbacks perform: the
document is missing or already used. -/
def ticketMissingOrUsed (tickets : TicketStore) (s : String) : Bool :=
  match alGet tickets s with
  | none => true
  | some t => t.used

/-- Some step of the flow fails: the token exchange (rejected promise
or non-success status), the identity fetch (likewise), the user record
write, or the ticket update. -/
def oracleStepFails (o : Oracle) : Bool :=
  (match o.tokenResp with
   | none => true
   | some tr => !tr.ok) ||
  (match o.userResp with
   | none => true
   | some ur => !ur.ok) ||
  !o.userWriteOk || !o.markUsedOk

/-- Some step of the ESM flow throws: a rejected fetch promise, a
profile body without an id (making the Firestore query throw), the
user record write, or the ticket update. -/
def p0_stepThrows (o : Oracle) : Bool :=
  o.tokenResp.isNone ||
  (match o.userResp with
   | none => true
   | some ur => ur.idField.isNone) ||
  !o.userWriteOk || !o.markUsedOk

theorem p1_no_cred_tickets (env : Env) (o : Oracle) (tickets : TicketStore)
    (users : UserStore) (mapping : MappingStore) (mirror : MirrorStore)
    (code state : Option String)
    (h : (p1_callback env o tickets users mapping mirror code state).credential = none) :
    (p1_callback env o tickets users mapping mirror code state).tickets = tickets := by
  unfold p1_callback p1_afterFetch p1_afterUserWrite at h ⊢
  repeat' split at h
  all_goals simp_all [CallbackResult.noCalls, CallbackResult.mkErr]

theorem p1_bad_ticket_rejected (env : Env) (o : Oracle) (tickets : TicketStore)
    (users : UserStore) (mapping : MappingStore) (mirror : MirrorStore)
    (code : Option String) (s : String)
    (h : ticketMissingOrUsed tickets s = true) :
    (p1_callback env o tickets users mapping mirror code (some s)).credential = none ∧
    (p1_callback env o tickets users mapping mirror code (some s)).tickets = tickets ∧
    ∃ m, (p1_callback env o tickets users mapping mirror code (some s)).response =
      .status 400 m := by
  unfold ticketMissingOrUsed at h
  unfold p1_callback
  by_cases h1 : (jsTruthy code && jsTruthy (some s)) = true
  · simp only [h1, Bool.not_true, Bool.false_eq_true, if_false, Option.getD_some]
    cases hget : alGet tickets s with
    | none => simp [CallbackResult.noCalls]
    | some t =>
      rw [hget] at h
      have ht : t.used = true := by simpa using h
      simp [ht, CallbackResult.noCalls]
  · have h2 : (jsTruthy code && jsTruthy (some s)) = false := Bool.eq_false_iff.mpr h1
    simp [h2, CallbackResult.noCalls]

theorem p1_callback_success (env : Env) (o : Oracle) (tickets : TicketStore)
    (users : UserStore) (mapping : MappingStore) (mirror : MirrorStore)
    (code state : Option String) (c : Credential)
    (hc : (p1_callback env o tickets users mapping mirror code state).credential = some c) :
    ∃ s t ur tr,
      state = some s ∧ (s == "") = false ∧ jsTruthy code = true ∧
      alGet tickets s = some t ∧ t.used = false ∧
      o.tokenResp = some tr ∧ tr.ok = true ∧
      o.userResp = some ur ∧ ur.ok = true ∧
      o.userWriteOk = true ∧ o.markUsedOk = true ∧
      c.discordIdClaim = some (jsString ur.idField) ∧
      (p1_callback env o tickets users mapping mirror code state).tickets =
        alUpdate tickets s (fun t2 => { t2 with used := true }) ∧
      (o.mappingWriteOk = true →
        (p1_callback env o tickets users mapping mirror code state).mapping =
          alSet mapping (jsString ur.idField) ⟨c.uid, o.now⟩) ∧
      (p1_callback env o tickets users mapping mirror code state).response =
        .redirect (env.successUrl ++ "?customToken=" ++ tokenString c) ∧
      (∀ pr, users.find? (fun p => p.2.discordId == some (jsString ur.idField)) = some pr →
        c.uid = pr.1 ∧
        (p1_callback env o tickets users mapping mirror code state).users =
          alSet users pr.1 (applyDiscordUpdate pr.2 (jsString ur.idField)
            ur.usernameField (avatarUrlFor (jsString ur.idField) ur.avatarField))) ∧
      (users.find? (fun p => p.2.discordId == some (jsString ur.idField)) = none →
        c.uid = o.newDocId ∧
        (p1_callback env o tickets users mapping mirror code state).users =
          alSet users o.newDocId (newDiscordUser (jsString ur.idField)
            ur.usernameField (avatarUrlFor (jsString ur.idField) ur.avatarField) o.now)) := by
  by_cases h1 : (jsTruthy code && jsTruthy state) = true
  case neg =>
    exfalso
    unfold p1_callback at hc
    simp [h1, CallbackResult.noCalls] at hc
  have hcode : jsTruthy code = true := by
    have h2 := Bool.and_eq_true (jsTruthy code) (jsTruthy state)
    simp_all
  have hstate : jsTruthy state = true := by
    have h2 := Bool.and_eq_true (jsTruthy code) (jsTruthy state)
    simp_all
  obtain ⟨s, hs, hse⟩ := jsTruthy_iff.mp hstate
  subst hs
  unfold p1_callback at hc
  simp only [h1, Bool.not_true, Bool.false_eq_true, if_false, Option.getD_some] at hc
  cases hget : alGet tickets s with
  | none =>
    exfalso
    rw [hget] at hc
    simp [CallbackResult.noCalls] at hc
  | some t =>
    rw [hget] at hc
    by_cases hused : t.used = true
    · exfalso
      simp [hused, CallbackResult.noCalls] at hc
    · have hused2 : t.used = false := by simp_all
      simp only [hused2, Bool.false_eq_true, if_false] at hc
      cases htr : o.tokenResp with
      | none =>
        exfalso
        rw [htr] at hc
        simp [CallbackResult.mkErr] at hc
      | some tr =>
        rw [htr] at hc
        by_cases htrok : tr.ok = true
        · simp only [htrok, Bool.not_true, Bool.false_eq_true, if_false] at hc
          cases hur : o.userResp with
          | none =>
            exfalso
            rw [hur] at hc
            simp [CallbackResult.mkErr] at hc
          | some ur =>
            rw [hur] at hc
            by_cases hurok : ur.ok = true
            · simp only [hurok, Bool.not_true, Bool.false_eq_true, if_false] at hc
              by_cases hw : o.userWriteOk = true
              · by_cases hm : o.markUsedOk = true
                · have hres : p1_callback env o tickets users mapping mirror code (some s) =
                      p1_afterFetch env o tickets users mapping mirror s ur := by
                    unfold p1_callback
                    simp [h1, hget, hused2, htr, htrok, hur, hurok]
                  unfold p1_afterFetch at hc
                  simp only [hw, Bool.not_true, Bool.false_eq_true, if_false] at hc
                  unfold p1_afterUserWrite at hc
                  simp only [hm, Bool.not_true, Bool.false_eq_true, if_false] at hc
                  have hc3 := Option.some.inj hc
                  refine ⟨s, t, ur, tr, rfl, hse, hcode, hget, hused2, rfl, htrok,
                    rfl, hurok, hw, hm, ?_, ?_, ?_, ?_, ?_, ?_⟩
                  · rw [← hc3]
                  · rw [hres]
                    unfold p1_afterFetch
                    simp only [hw, Bool.not_true, Bool.false_eq_true, if_false]
                    unfold p1_afterUserWrite
                    simp only [hm, Bool.not_true, Bool.false_eq_true, if_false]
                  · intro hmw
                    rw [hres]
                    unfold p1_afterFetch
                    simp only [hw, Bool.not_true, Bool.false_eq_true, if_false]
                    unfold p1_afterUserWrite
                    simp only [hm, hmw, Bool.not_true, Bool.false_eq_true, if_false, if_true]
                    rw [← hc3]
                  · rw [hres]
                    unfold p1_afterFetch
                    simp only [hw, Bool.not_true, Bool.false_eq_true, if_false]
                    unfold p1_afterUserWrite
                    simp only [hm, Bool.not_true, Bool.false_eq_true, if_false]
                    rw [← hc3]
                  · intro pr hf
                    constructor
                    · rw [← hc3]
                      simp [hf]
                    · rw [hres]
                      unfold p1_afterFetch
                      simp only [hw, Bool.not_true, Bool.false_eq_true, if_false]
                      unfold p1_afterUserWrite
                      simp only [hm, Bool.not_true, Bool.false_eq_true, if_false]
                      simp [hf]
                  · intro hf
                    constructor
                    · rw [← hc3]
                      simp [hf]
                    · rw [hres]
                      unfold p1_afterFetch
                      simp only [hw, Bool.not_true, Bool.false_eq_true, if_false]
                      unfold p1_afterUserWrite
                      simp only [hm, Bool.not_true, Bool.false_eq_true, if_false]
                      simp [hf]
                · exfalso
                  have hm2 : o.markUsedOk = false := by simp_all
                  unfold p1_afterFetch p1_afterUserWrite at hc
                  simp [hw, hm2, CallbackResult.mkErr] at hc
              · exfalso
                have hw2 : o.userWriteOk = false := by simp_all
                unfold p1_afterFetch at hc
                simp [hw2, CallbackResult.mkErr] at hc
            · exfalso
              have h3 : ur.ok = false := by simp_all
              simp [h3, CallbackResult.mkErr] at hc
        · exfalso
          have h3 : tr.ok = false := by simp_all
          simp [h3, CallbackResult.mkErr] at hc

theorem p0_no_cred_tickets (env : Env) (o : Oracle) (tickets : TicketStore)
    (users : UserStore) (mapping : MappingStore) (mirror : MirrorStore)
    (code state : Option String)
    (h : (p0_callback env o tickets users mapping mirror code state).credential = none) :
    (p0_callback env o tickets users mapping mirror code state).tickets = tickets := by
  unfold p0_callback p0_afterUserWrite at h ⊢
  repeat' split at h
  all_goals simp_all [CallbackResult.noCalls, CallbackResult.mkErr]

theorem p0_bad_ticket_rejected (env : Env) (o : Oracle) (tickets : TicketStore)
    (users : UserStore) (mapping : MappingStore) (mirror : MirrorStore)
    (code : Option String) (s : String)
    (h : ticketMissingOrUsed tickets s = true) :
    (p0_callback env o tickets users mapping mirror code (some s)).credential = none ∧
    (p0_callback env o tickets users mapping mirror code (some s)).tickets = tickets ∧
    (p0_callback env o tickets users mapping mirror code (some s)).response =
      .redirect env.errorUrl := by
  unfold ticketMissingOrUsed at h
  unfold p0_callback
  by_cases h1 : (jsTruthy code && jsTruthy (some s)) = true
  · simp only [h1, Bool.not_true, Bool.false_eq_true, if_false, Option.getD_some]
    cases hget : alGet tickets s with
    | none => simp [CallbackResult.noCalls]
    | some t =>
      rw [hget] at h
      have ht : t.used = true := by simpa using h
      simp [ht, CallbackResult.noCalls]
  · have h2 : (jsTruthy code && jsTruthy (some s)) = false := Bool.eq_false_iff.mpr h1
    simp [h2, CallbackResult.noCalls]

theorem p0_callback_success (env : Env) (o : Oracle) (tickets : TicketStore)
    (users : UserStore) (mapping : MappingStore) (mirror : MirrorStore)
    (code state : Option String) (c : Credential)
    (hc : (p0_callback env o tickets users mapping mirror code state).credential = some c) :
    ∃ s t ur did tr,
      state = some s ∧ (s == "") = false ∧ jsTruthy code = true ∧
      alGet tickets s = some t ∧ t.used = false ∧
      o.tokenResp = some tr ∧
      o.userResp = some ur ∧ ur.idField = some did ∧
      o.userWriteOk = true ∧ o.markUsedOk = true ∧
      c.discordIdClaim = none ∧
      (p0_callback env o tickets users mapping mirror code state).tickets =
        alUpdate tickets s (fun t2 => { t2 with used := true }) ∧
      (p0_callback env o tickets users mapping mirror code state).mapping = mapping ∧
      (p0_callback env o tickets users mapping mirror code state).response =
        .redirect (env.successUrl ++ "?token=" ++ tokenString c) ∧
      (∀ pr, users.find? (fun p => p.2.discordId == some did) = some pr →
        c.uid = pr.1 ∧
        (p0_callback env o tickets users mapping mirror code state).users =
          alSet users pr.1 (p0_applyMerge pr.2 did
            (jsString ur.usernameField ++ "#" ++ jsString ur.discriminatorField)
            (avatarUrlFor did ur.avatarField))) ∧
      (users.find? (fun p => p.2.discordId == some did) = none →
        c.uid = o.newDocId ∧
        (p0_callback env o tickets users mapping mirror code state).users =
          alSet users o.newDocId (p0_freshMerge did
            (jsString ur.usernameField ++ "#" ++ jsString ur.discriminatorField)
            (avatarUrlFor did ur.avatarField))) := by
  by_cases h1 : (jsTruthy code && jsTruthy state) = true
  case neg =>
    exfalso
    unfold p0_callback at hc
    simp [h1, CallbackResult.noCalls] at hc
  have hcode : jsTruthy code = true := by
    have h2 := Bool.and_eq_true (jsTruthy code) (jsTruthy state)
    simp_all
  have hstate : jsTruthy state = true := by
    have h2 := Bool.and_eq_true (jsTruthy code) (jsTruthy state)
    simp_all
  obtain ⟨s, hs, hse⟩ := jsTruthy_iff.mp hstate
  subst hs
  unfold p0_callback at hc
  simp only [h1, Bool.not_true, Bool.false_eq_true, if_false, Option.getD_some] at hc
  cases hget : alGet tickets s with
  | none =>
    exfalso
    rw [hget] at hc
    simp [CallbackResult.noCalls] at hc
  | some t =>
    rw [hget] at hc
    by_cases hused : t.used = true
    · exfalso
      simp [hused, CallbackResult.noCalls] at hc
    · have hused2 : t.used = false := by simp_all
      simp only [hused2, Bool.false_eq_true, if_false] at hc
      cases htr : o.tokenResp with
      | none =>
        exfalso
        rw [htr] at hc
        simp [CallbackResult.mkErr] at hc
      | some tr =>
        rw [htr] at hc
        cases hur : o.userResp with
        | none =>
          exfalso
          rw [hur] at hc
          simp [CallbackResult.mkErr] at hc
        | some ur =>
          rw [hur] at hc
          dsimp only at hc
          cases hid : ur.idField with
          | none =>
            exfalso
            rw [hid] at hc
            simp [CallbackResult.mkErr] at hc
          | some did =>
            rw [hid] at hc
            by_cases hw : o.userWriteOk = true
            · by_cases hm : o.markUsedOk = true
              · unfold p0_afterUserWrite at hc
                simp only [hw, hm, Bool.not_true, Bool.false_eq_true, if_false] at hc
                have hc3 := Option.some.inj hc
                refine ⟨s, t, ur, did, tr, rfl, hse, hcode, hget, hused2, rfl,
                  rfl, hid, hw, hm, ?_, ?_, ?_, ?_, ?_, ?_⟩
                · rw [← hc3]
                · unfold p0_callback p0_afterUserWrite
                  simp [h1, hget, hused2, htr, hur, hid, hw, hm]
                · unfold p0_callback p0_afterUserWrite
                  simp [h1, hget, hused2, htr, hur, hid, hw, hm]
                · unfold p0_callback p0_afterUserWrite
                  simp only [h1, Bool.not_true, Bool.false_eq_true, if_false,
                    Option.getD_some, hget, hused2, htr, hur, hid, hw, hm]
                  rw [← hc3]
                · intro pr hf
                  constructor
                  · rw [← hc3]
                    simp [hf]
                  · unfold p0_callback p0_afterUserWrite
                    simp [h1, hget, hused2, htr, hur, hid, hw, hm, hf]
                · intro hf
                  constructor
                  · rw [← hc3]
                    simp [hf]
                  · unfold p0_callback p0_afterUserWrite
                    simp [h1, hget, hused2, htr, hur, hid, hw, hm, hf]
              · exfalso
                have hm2 : o.markUsedOk = false := by simp_all
                unfold p0_afterUserWrite at hc
                simp [hw, hm2, CallbackResult.mkErr] at hc
            · exfalso
              have hw2 : o.userWriteOk = false := by simp_all
              simp [hw2, CallbackResult.mkErr] at hc

theorem idx_callback_success (env : Env) (o : Oracle) (tickets : TicketStore)
    (users : UserStore) (mapping : MappingStore) (mirror : MirrorStore)
    (code state : Option String) (c : Credential)
    (hc : (idx_callback env o tickets users mapping mirror code state).credential = some c) :
    ∃ s ur tr,
      state = some s ∧ (s == "") = false ∧ jsTruthy code = true ∧
      o.tokenResp = some tr ∧ tr.ok = true ∧
      o.userResp = some ur ∧ ur.ok = true ∧
      o.userWriteOk = true ∧ o.mappingWriteOk = true ∧
      isSnowflake (idx_chosenId (some s) ur) = true ∧
      c.discordIdClaim = some (idx_chosenId (some s) ur) ∧
      (idx_callback env o tickets users mapping mirror code state).tickets = tickets ∧
      (idx_callback env o tickets users mapping mirror code state).mapping =
        alSet mapping (idx_chosenId (some s) ur) ⟨c.uid, o.now⟩ ∧
      (idx_callback env o tickets users mapping mirror code state).mirror =
        alSet mirror c.uid (idx_chosenId (some s) ur) ∧
      (idx_callback env o tickets users mapping mirror code state).response =
        .redirect (env.successUrl ++ "?customToken=" ++ tokenString c) ∧
      (∀ pr, users.find? (fun p => p.2.discordId == some (jsString ur.idField)) = some pr →
        c.uid = pr.1 ∧
        (idx_callback env o tickets users mapping mirror code state).users =
          alSet users pr.1 (applyDiscordUpdate pr.2 (jsString ur.idField)
            ur.usernameField (avatarUrlFor (jsString ur.idField) ur.avatarField))) ∧
      (users.find? (fun p => p.2.discordId == some (jsString ur.idField)) = none →
        c.uid = o.newDocId ∧
        (idx_callback env o tickets users mapping mirror code state).users =
          alSet users o.newDocId (newDiscordUser (jsString ur.idField)
            ur.usernameField (avatarUrlFor (jsString ur.idField) ur.avatarField) o.now)) := by
  by_cases h1 : (jsTruthy code && jsTruthy state) = true
  case neg =>
    exfalso
    unfold idx_callback at hc
    simp [h1, CallbackResult.noCalls] at hc
  have hcode : jsTruthy code = true := by
    have h2 := Bool.and_eq_true (jsTruthy code) (jsTruthy state)
    simp_all
  have hstate : jsTruthy state = true := by
    have h2 := Bool.and_eq_true (jsTruthy code) (jsTruthy state)
    simp_all
  obtain ⟨s, hs, hse⟩ := jsTruthy_iff.mp hstate
  subst hs
  unfold idx_callback at hc
  simp only [h1, Bool.not_true, Bool.false_eq_true, if_false] at hc
  cases htr : o.tokenResp with
  | none =>
    exfalso
    rw [htr] at hc
    simp [CallbackResult.mkErr] at hc
  | some tr =>
    rw [htr] at hc
    by_cases htrok : tr.ok = true
    · simp only [htrok, Bool.not_true, Bool.false_eq_true, if_false] at hc
      cases hur : o.userResp with
      | none =>
        exfalso
        rw [hur] at hc
        simp [CallbackResult.mkErr] at hc
      | some ur =>
        rw [hur] at hc
        by_cases hurok : ur.ok = true
        · simp only [hurok, Bool.not_true, Bool.false_eq_true, if_false] at hc
          by_cases hw : o.userWriteOk = true
          · simp only [hw, Bool.not_true, Bool.false_eq_true, if_false] at hc
            unfold idx_afterUserWrite at hc
            by_cases hsnow : isSnowflake (idx_chosenId (some s) ur) = true
            · simp only [hsnow, Bool.not_true, Bool.false_eq_true, if_false] at hc
              by_cases hmw : o.mappingWriteOk = true
              · simp only [hmw, Bool.not_true, Bool.false_eq_true, if_false] at hc
                have hc3 := Option.some.inj hc
                refine ⟨s, ur, tr, rfl, hse, hcode, rfl, htrok, rfl, hurok,
                  hw, hmw, hsnow, ?_, ?_, ?_, ?_, ?_, ?_, ?_⟩
                · rw [← hc3]
                · unfold idx_callback idx_afterUserWrite
                  simp [h1, htr, htrok, hur, hurok, hw, hsnow, hmw]
                · unfold idx_callback idx_afterUserWrite
                  simp only [h1, Bool.not_true, Bool.false_eq_true, if_false,
                    htr, htrok, hur, hurok, hw, hsnow, hmw, if_true]
                  rw [← hc3]
                · unfold idx_callback idx_afterUserWrite
                  simp only [h1, Bool.not_true, Bool.false_eq_true, if_false,
                    htr, htrok, hur, hurok, hw, hsnow, hmw, if_true]
                  rw [← hc3]
                · unfold idx_callback idx_afterUserWrite
                  simp only [h1, Bool.not_true, Bool.false_eq_true, if_false,
                    htr, htrok, hur, hurok, hw, hsnow, hmw, if_true]
                  rw [← hc3]
                · intro pr hf
                  constructor
                  · rw [← hc3]
                    simp [hf]
                  · unfold idx_callback idx_afterUserWrite
                    simp [h1, htr, htrok, hur, hurok, hw, hsnow, hmw, hf]
                · intro hf
                  constructor
                  · rw [← hc3]
                    simp [hf]
                  · unfold idx_callback idx_afterUserWrite
                    simp [h1, htr, htrok, hur, hurok, hw, hsnow, hmw, hf]
              · exfalso
                have hmw2 : o.mappingWriteOk = false := by simp_all
                simp [hmw2, CallbackResult.mkErr] at hc
            · exfalso
              have hsnow2 : isSnowflake (idx_chosenId (some s) ur) = false := by
                simp_all
              simp [hsnow2, CallbackResult.mkErr] at hc
          · exfalso
            have hw2 : o.userWriteOk = false := by simp_all
            simp [hw2, CallbackResult.mkErr] at hc
        · exfalso
          have h3 : ur.ok = false := by simp_all
          simp [h3, CallbackResult.mkErr] at hc
    · exfalso
      have h3 : tr.ok = false := by simp_all
      simp [h3, CallbackResult.mkErr] at hc

theorem p1_step_failure_redirect (env : Env) (o : Oracle) (tickets : TicketStore)
    (users : UserStore) (mapping : MappingStore) (mirror : MirrorStore)
    (code : Option String) (s : String) (t : LinkTicket)
    (hcode : jsTruthy code = true) (hs : (s == "") = false)
    (hget : alGet tickets s = some t) (hused : t.used = false)
    (hfail : oracleStepFails o = true) :
    (p1_callback env o tickets users mapping mirror code (some s)).response =
      .redirect env.errorUrl ∧
    (p1_callback env o tickets users mapping mirror code (some s)).credential = none := by
  unfold oracleStepFails at hfail
  unfold p1_callback p1_afterFetch p1_afterUserWrite
  repeat' split
  all_goals simp_all [CallbackResult.noCalls, CallbackResult.mkErr, jsTruthy]

theorem p0_step_throw_redirect (env : Env) (o : Oracle) (tickets : TicketStore)
    (users : UserStore) (mapping : MappingStore) (mirror : MirrorStore)
    (code : Option String) (s : String) (t : LinkTicket)
    (hcode : jsTruthy code = true) (hs : (s == "") = false)
    (hget : alGet tickets s = some t) (_hused : t.used = false)
    (hfail : p0_stepThrows o = true) :
    (p0_callback env o tickets users mapping mirror code (some s)).response =
      .redirect env.errorUrl ∧
    (p0_callback env o tickets users mapping mirror code (some s)).credential = none := by
  unfold p0_stepThrows at hfail
  unfold p0_callback p0_afterUserWrite
  repeat' split
  all_goals simp_all [CallbackResult.noCalls, CallbackResult.mkErr, jsTruthy]

/-! ### Claims -/

/-- Claim C1: the used flag of a ticket transitions false to true at
most once and only in a completion whose preceding steps all
succeeded: a callback on a state whose stored document is missing or
has used true is rejected without a credential and without any store
change (status 400 in the nonce-store variant, error redirect in the
ESM variant), a run that changes the ticket store is one that issued a
credential, and a second completion attempt for the same ticket after
a successful one never yields a credential, in either store-backed
variant. -/
theorem c1_ticket_single_use (env : Env) (o o2 : Oracle) (tickets : TicketStore)
    (users : UserStore) (mapping : MappingStore) (mirror : MirrorStore)
    (code code2 : Option String) (s : String) :
    (ticketMissingOrUsed tickets s = true →
      (p1_callback env o tickets users mapping mirror code (some s)).credential = none ∧
      (p1_callback env o tickets users mapping mirror code (some s)).tickets = tickets ∧
      (∃ m, (p1_callback env o tickets users mapping mirror code (some s)).response =
        .status 400 m) ∧
      (p0_callback env o tickets users mapping mirror code (some s)).credential = none ∧
      (p0_callback env o tickets users mapping mirror code (some s)).tickets = tickets ∧
      (p0_callback env o tickets users mapping mirror code (some s)).response =
        .redirect env.errorUrl) ∧
    ((p1_callback env o tickets users mapping mirror code (some s)).tickets ≠ tickets →
      ∃ c, (p1_callback env o tickets users mapping mirror code (some s)).credential = some c) ∧
    (∀ c, (p1_callback env o tickets users mapping mirror code (some s)).credential = some c →
      (p1_callback env o2
          (p1_callback env o tickets users mapping mirror code (some s)).tickets
          (p1_callback env o tickets users mapping mirror code (some s)).users
          (p1_callback env o tickets users mapping mirror code (some s)).mapping
          (p1_callback env o tickets users mapping mirror code (some s)).mirror
          code2 (some s)).credential = none) ∧
    (∀ c, (p0_callback env o tickets users mapping mirror code (some s)).credential = some c →
      (p0_callback env o2
          (p0_callback env o tickets users mapping mirror code (some s)).tickets
          (p0_callback env o tickets users mapping mirror code (some s)).users
          (p0_callback env o tickets users mapping mirror code (some s)).mapping
          (p0_callback env o tickets users mapping mirror code (some s)).mirror
          code2 (some s)).credential = none) := by
  refine ⟨?_, ?_, ?_, ?_⟩
  · intro h
    obtain ⟨ha, hb, hm⟩ := p1_bad_ticket_rejected env o tickets users mapping mirror code s h
    obtain ⟨hc, hd, he⟩ := p0_bad_ticket_rejected env o tickets users mapping mirror code s h
    exact ⟨ha, hb, hm, hc, hd, he⟩
  · intro hne
    cases hcred : (p1_callback env o tickets users mapping mirror code (some s)).credential with
    | some c => exact ⟨c, rfl⟩
    | none => exact absurd (p1_no_cred_tickets env o tickets users mapping mirror code (some s) hcred) hne
  · intro c hc
    obtain ⟨s2, t, ur, tr, hs2, hse, hcode, hget, hused, htr, htrok, hur, hurok,
      hw, hm, hclaim, htick, hmap, hresp, hfs, hfn⟩ :=
      p1_callback_success env o tickets users mapping mirror code (some s) c hc
    cases hs2
    have hused2 : ticketMissingOrUsed
        (p1_callback env o tickets users mapping mirror code (some s)).tickets s = true := by
      unfold ticketMissingOrUsed
      rw [htick, alGet_alUpdate_self, hget]
      rfl
    exact (p1_bad_ticket_rejected env o2
      (p1_callback env o tickets users mapping mirror code (some s)).tickets
      (p1_callback env o tickets users mapping mirror code (some s)).users
      (p1_callback env o tickets users mapping mirror code (some s)).mapping
      (p1_callback env o tickets users mapping mirror code (some s)).mirror
      code2 s hused2).1
  · intro c hc
    obtain ⟨s2, t, ur, did, tr, hs2, hse, hcode, hget, hused, htr, hur, hid,
      hw, hm, hclaim, htick, hmap, hresp, hfs, hfn⟩ :=
      p0_callback_success env o tickets users mapping mirror code (some s) c hc
    cases hs2
    have hused2 : ticketMissingOrUsed
        (p0_callback env o tickets users mapping mirror code (some s)).tickets s = true := by
      unfold ticketMissingOrUsed
      rw [htick, alGet_alUpdate_self, hget]
      rfl
    exact (p0_bad_ticket_rejected env o2
      (p0_callback env o tickets users mapping mirror code (some s)).tickets
      (p0_callback env o tickets users mapping mirror code (some s)).users
      (p0_callback env o tickets users mapping mirror code (some s)).mapping
      (p0_callback env o tickets users mapping mirror code (some s)).mirror
      code2 s hused2).1

/-- Claim C1 witness: a concrete successful completion marks the
ticket used and a replay of the same state is then rejected without a
credential; a callback on an already used ticket is rejected. -/
theorem c1_ticket_single_use_witness :
    (p1_callback env0 oracle0
        (p1_callback env0 oracle0 [("s1", ticket0)] [] [] [] (some "c") (some "s1")).tickets
        (p1_callback env0 oracle0 [("s1", ticket0)] [] [] [] (some "c") (some "s1")).users
        (p1_callback env0 oracle0 [("s1", ticket0)] [] [] [] (some "c") (some "s1")).mapping
        (p1_callback env0 oracle0 [("s1", ticket0)] [] [] [] (some "c") (some "s1")).mirror
        (some "c") (some "s1")).credential = none ∧
    (p1_callback env0 oracle0 [("s1", ticketUsed)] [] [] [] (some "c") (some "s1")).credential = none := by
  constructor
  · exact (c1_ticket_single_use env0 oracle0 oracle0 [("s1", ticket0)] [] [] []
      (some "c") (some "c") "s1").2.2.1
      ⟨"u1", some "200000000000000002"⟩ (by decide)
  · exact ((c1_ticket_single_use env0 oracle0 oracle0 [("s1", ticketUsed)] [] [] []
      (some "c") (some "c") "s1").1 (by decide)).1

theorem p1_token_fail_no_fetch (env : Env) (o : Oracle) (tickets : TicketStore)
    (users : UserStore) (mapping : MappingStore) (mirror : MirrorStore)
    (code state : Option String) (tr : TokenResp)
    (htr : o.tokenResp = some tr) (hok : tr.ok = false) :
    (p1_callback env o tickets users mapping mirror code state).identityCalled = false ∧
    ((p1_callback env o tickets users mapping mirror code state).tokenCalled = true →
      (p1_callback env o tickets users mapping mirror code state).response =
        .redirect env.errorUrl) := by
  unfold p1_callback
  repeat' split
  all_goals simp_all [CallbackResult.noCalls, CallbackResult.mkErr]

theorem idx_token_fail_no_fetch (env : Env) (o : Oracle) (tickets : TicketStore)
    (users : UserStore) (mapping : MappingStore) (mirror : MirrorStore)
    (code state : Option String) (tr : TokenResp)
    (htr : o.tokenResp = some tr) (hok : tr.ok = false) :
    (idx_callback env o tickets users mapping mirror code state).identityCalled = false ∧
    ((idx_callback env o tickets users mapping mirror code state).tokenCalled = true →
      (idx_callback env o tickets users mapping mirror code state).response =
        .redirect env.errorUrl) := by
  unfold idx_callback
  repeat' split
  all_goals simp_all [CallbackResult.noCalls, CallbackResult.mkErr]

/-- Claim C2 counterexample: in the ESM variant the identity-fetch
call is still performed after the token exchange returns a non-success
response (the response status is never checked), refuting the claim
for that variant. -/
theorem c2_counterexample :
    ¬ ((p0_callback env0 oracleBadTok [("s1", ticket0)] [] [] []
        (some "c") (some "s1")).tokenCalled = true →
      (p0_callback env0 oracleBadTok [("s1", ticket0)] [] [] []
        (some "c") (some "s1")).identityCalled = false) := by
  decide

/-- Claim C2 (amended): in the nonce-store CommonJS variant and the
format-only variant, a callback whose token exchange returns a
non-success response never performs the identity fetch, and whenever
the token exchange was performed at all the request is routed to the
error redirect.  The ESM variant checks no response status and still
performs the identity fetch. -/
theorem c2_failed_exchange_no_fetch (env : Env) (o : Oracle) (tickets : TicketStore)
    (users : UserStore) (mapping : MappingStore) (mirror : MirrorStore)
    (code state : Option String) (tr : TokenResp)
    (htr : o.tokenResp = some tr) (hok : tr.ok = false) :
    ((p1_callback env o tickets users mapping mirror code state).identityCalled = false ∧
      ((p1_callback env o tickets users mapping mirror code state).tokenCalled = true →
        (p1_callback env o tickets users mapping mirror code state).response =
          .redirect env.errorUrl)) ∧
    ((idx_callback env o tickets users mapping mirror code state).identityCalled = false ∧
      ((idx_callback env o tickets users mapping mirror code state).tokenCalled = true →
        (idx_callback env o tickets users mapping mirror code state).response =
          .redirect env.errorUrl)) :=
  ⟨p1_token_fail_no_fetch env o tickets users mapping mirror code state tr htr hok,
   idx_token_fail_no_fetch env o tickets users mapping mirror code state tr htr hok⟩

/-- Claim C2 witness: a concrete run of the nonce-store variant with a
failing token exchange performs no identity fetch and redirects to the
error destination. -/
theorem c2_failed_exchange_no_fetch_witness :
    (p1_callback env0 oracleBadTok [("s1", ticket0)] [] [] []
      (some "c") (some "s1")).identityCalled = false ∧
    (p1_callback env0 oracleBadTok [("s1", ticket0)] [] [] []
      (some "c") (some "s1")).response = .redirect env0.errorUrl := by
  have h := c2_failed_exchange_no_fetch env0 oracleBadTok [("s1", ticket0)] [] [] []
    (some "c") (some "s1") trBad rfl rfl
  exact ⟨h.1.1, h.1.2 (by decide)⟩

theorem idx_chosenId_eq (state : Option String) (ur : UserResp)
    (h : isSnowflake (jsTrim (state.getD "")) = false ∨
      jsTrim (state.getD "") = ur.idField.getD "") :
    idx_chosenId state ur = ur.idField.getD "" := by
  unfold idx_chosenId
  rcases h with h | h
  · simp [h]
  · by_cases h2 : isSnowflake (jsTrim (state.getD "")) = true
    · simp [h2, h]
    · have h3 : isSnowflake (jsTrim (state.getD "")) = false := by simp_all
      simp [h3]

/-- Claim C3 counterexample: in the format-only variant, a successful
completion whose state parameter is a well-formed snowflake different
from the fetched external id binds the credential to the
state-provided id and writes no mapping entry for the external id E of
the reconciled identity: the lookup for E yields nothing. -/
theorem c3_counterexample :
    (idx_callback env0 oracleB [] [] [] [] (some "c")
      (some "111111111111111111")).credential =
      some ⟨"u1", some "111111111111111111"⟩ ∧
    alGet (idx_callback env0 oracleB [] [] [] [] (some "c")
      (some "111111111111111111")).mapping "222222222222222222" = none := by
  decide

/-- Claim C3 (amended): after a successful completion the mapping
lookup for the external id E of the reconciled identity yields the
internal id the credential is bound to, with E embedded as the claim —
in the nonce-store variant whenever the mapping write completed (its
failure is swallowed), and in the format-only variant provided the
state parameter is E itself or fails the snowflake format check; a
state that is a different well-formed snowflake keys the mapping by
the state instead of E. -/
theorem c3_mapping_roundtrip (env : Env) (o : Oracle) (tickets : TicketStore)
    (users : UserStore) (mapping : MappingStore) (mirror : MirrorStore)
    (code state : Option String) (ur : UserResp) (c : Credential)
    (hur : o.userResp = some ur) :
    (o.mappingWriteOk = true →
      (p1_callback env o tickets users mapping mirror code state).credential = some c →
      c.discordIdClaim = some (jsString ur.idField) ∧
      alGet (p1_callback env o tickets users mapping mirror code state).mapping
        (jsString ur.idField) = some ⟨c.uid, o.now⟩) ∧
    ((isSnowflake (jsTrim (state.getD "")) = false ∨
        jsTrim (state.getD "") = ur.idField.getD "") →
      (idx_callback env o tickets users mapping mirror code state).credential = some c →
      c.discordIdClaim = some (ur.idField.getD "") ∧
      alGet (idx_callback env o tickets users mapping mirror code state).mapping
        (ur.idField.getD "") = some ⟨c.uid, o.now⟩) := by
  constructor
  · intro hmw hc
    obtain ⟨s2, t, ur2, tr, hs2, hse, hcode, hget, hused, htr, htrok, hur2, hurok,
      hw, hm, hclaim, htick, hmap, hresp, hfs, hfn⟩ :=
      p1_callback_success env o tickets users mapping mirror code state c hc
    have hu : ur2 = ur := Option.some.inj (hur2.symm.trans hur)
    subst hu
    refine ⟨hclaim, ?_⟩
    rw [hmap hmw, alGet_alSet_self]
  · intro hcond hc
    obtain ⟨s2, ur2, tr, hs2, hse, hcode, htr, htrok, hur2, hurok,
      hw, hmw, hsnow, hclaim, htick, hmap, hmir, hresp, hfs, hfn⟩ :=
      idx_callback_success env o tickets users mapping mirror code state c hc
    subst hs2
    have hu : ur2 = ur := Option.some.inj (hur2.symm.trans hur)
    rw [hu] at hclaim hmap
    have hch : idx_chosenId (some s2) ur = ur.idField.getD "" :=
      idx_chosenId_eq (some s2) ur hcond
    rw [hch] at hclaim hmap
    refine ⟨hclaim, ?_⟩
    rw [hmap, alGet_alSet_self]

/-- Claim C3 witness: a concrete successful run of the nonce-store
variant; the mapping lookup for the fetched external id returns the
credential subject. -/
theorem c3_mapping_roundtrip_witness :
    (p1_callback env0 oracle0 [("s1", ticket0)] [] [] [] (some "c")
      (some "s1")).credential = some ⟨"u1", some "200000000000000002"⟩ ∧
    alGet (p1_callback env0 oracle0 [("s1", ticket0)] [] [] [] (some "c")
      (some "s1")).mapping "200000000000000002" =
      some ⟨"u1", (1000 : Int)⟩ := by
  have h := (c3_mapping_roundtrip env0 oracle0 [("s1", ticket0)] [] [] []
    (some "c") (some "s1") urOK ⟨"u1", some "200000000000000002"⟩ rfl).1
    rfl (by decide)
  exact ⟨by decide, h.2⟩

/-- An existing application-user record with pre-existing application
fields, linked to external id 200000000000000002. -/
def user1 : AppUser :=
  ⟨some "Old Name", some "oldname", some 500, some "200000000000000002",
    some "oldnick", none⟩

/-- Claim C4: reconciling an external identity whose id already
matches an existing application-user record overwrites the mirrored
profile fields on that same record, binds the credential to the
existing internal id, and creates no new user record (the key list of
the user store is unchanged) — in both store-backed variants. -/
theorem c4_existing_user_updated (env : Env) (o : Oracle) (tickets : TicketStore)
    (users : UserStore) (mapping : MappingStore) (mirror : MirrorStore)
    (code state : Option String) (ur : UserResp) (did : String) (pr : String × AppUser)
    (hur : o.userResp = some ur) (hid : ur.idField = some did)
    (hfind : users.find? (fun p => p.2.discordId == some did) = some pr) :
    (∀ c, (p1_callback env o tickets users mapping mirror code state).credential = some c →
      c.uid = pr.1 ∧
      (p1_callback env o tickets users mapping mirror code state).users =
        alSet users pr.1 (applyDiscordUpdate pr.2 did ur.usernameField
          (avatarUrlFor did ur.avatarField)) ∧
      ((p1_callback env o tickets users mapping mirror code state).users).map Prod.fst =
        users.map Prod.fst) ∧
    (∀ c, (p0_callback env o tickets users mapping mirror code state).credential = some c →
      c.uid = pr.1 ∧
      (p0_callback env o tickets users mapping mirror code state).users =
        alSet users pr.1 (p0_applyMerge pr.2 did
          (jsString ur.usernameField ++ "#" ++ jsString ur.discriminatorField)
          (avatarUrlFor did ur.avatarField)) ∧
      ((p0_callback env o tickets users mapping mirror code state).users).map Prod.fst =
        users.map Prod.fst) := by
  have hmem : pr.1 ∈ users.map Prod.fst :=
    List.mem_map_of_mem Prod.fst (List.mem_of_find?_eq_some hfind)
  constructor
  · intro c hc
    obtain ⟨s2, t, ur2, tr, hs2, hse, hcode, hget, hused, htr, htrok, hur2, hurok,
      hw, hm, hclaim, htick, hmap, hresp, hfs, hfn⟩ :=
      p1_callback_success env o tickets users mapping mirror code state c hc
    have hu : ur2 = ur := Option.some.inj (hur2.symm.trans hur)
    rw [hu] at hfs
    have hj : jsString ur.idField = did := by rw [hid]; rfl
    rw [hj] at hfs
    obtain ⟨huid, husers⟩ := hfs pr hfind
    refine ⟨huid, husers, ?_⟩
    rw [husers, alSet_keys users pr.1 _ hmem]
  · intro c hc
    obtain ⟨s2, t, ur2, did2, tr, hs2, hse, hcode, hget, hused, htr, hur2, hid2,
      hw, hm, hclaim, htick, hmap, hresp, hfs, hfn⟩ :=
      p0_callback_success env o tickets users mapping mirror code state c hc
    have hu : ur2 = ur := Option.some.inj (hur2.symm.trans hur)
    rw [hu] at hfs hid2
    have hd : did2 = did := Option.some.inj (hid2.symm.trans hid)
    rw [hd] at hfs
    obtain ⟨huid, husers⟩ := hfs pr hfind
    refine ⟨huid, husers, ?_⟩
    rw [husers, alSet_keys users pr.1 _ hmem]

/-- Claim C4 witness: a concrete successful run against a store whose
only record already carries the fetched external id keeps the key
list unchanged and binds the credential to that record's id. -/
theorem c4_existing_user_updated_witness :
    ((p1_callback env0 oracle0 [("s1", ticket0)] [("u7", user1)] [] []
      (some "c") (some "s1")).users).map Prod.fst = ["u7"] ∧
    (p1_callback env0 oracle0 [("s1", ticket0)] [("u7", user1)] [] []
      (some "c") (some "s1")).users =
      alSet [("u7", user1)] "u7" (applyDiscordUpdate user1 "200000000000000002"
        (some "alice") (avatarUrlFor "200000000000000002" (some "abc"))) := by
  have h := (c4_existing_user_updated env0 oracle0 [("s1", ticket0)] [("u7", user1)]
    [] [] (some "c") (some "s1") urOK "200000000000000002" ("u7", user1)
    rfl rfl (by decide)).1 ⟨"u7", some "200000000000000002"⟩ (by decide)
  exact ⟨h.2.2.trans (by decide), h.2.1⟩

/-- Claim C5 counterexample: the ESM variant maintains no mapping
store at all: a successful reconcile of a never-seen identity creates
the user record but zero mapping entries. -/
theorem c5_counterexample :
    (p0_callback env0 oracle0 [("s1", ticket0)] [] [] []
      (some "c") (some "s1")).credential.isSome = true ∧
    ((p0_callback env0 oracle0 [("s1", ticket0)] [] [] []
      (some "c") (some "s1")).users).map Prod.fst = ["u1"] ∧
    (p0_callback env0 oracle0 [("s1", ticket0)] [] [] []
      (some "c") (some "s1")).mapping = [] := by
  decide

/-- Claim C5 (amended): reconciling a never-seen external identity
appends exactly one new application-user record carrying the mirrored
profile fields; the nonce-store variant additionally leaves exactly
one mapping entry from the external id to the new internal id
(provided the mapping write completes), while the ESM variant
maintains no mapping store and leaves it untouched. -/
theorem c5_new_user_created (env : Env) (o : Oracle) (tickets : TicketStore)
    (users : UserStore) (mapping : MappingStore) (mirror : MirrorStore)
    (code state : Option String) (ur : UserResp) (did : String)
    (hur : o.userResp = some ur) (hid : ur.idField = some did)
    (hfind : users.find? (fun p => p.2.discordId == some did) = none)
    (hfresh : o.newDocId ∉ users.map Prod.fst)
    (hkey : countKey mapping did ≤ 1) :
    (∀ c, o.mappingWriteOk = true →
      (p1_callback env o tickets users mapping mirror code state).credential = some c →
      c.uid = o.newDocId ∧
      (p1_callback env o tickets users mapping mirror code state).users =
        users ++ [(o.newDocId, newDiscordUser did ur.usernameField
          (avatarUrlFor did ur.avatarField) o.now)] ∧
      alGet (p1_callback env o tickets users mapping mirror code state).mapping did =
        some ⟨o.newDocId, o.now⟩ ∧
      countKey (p1_callback env o tickets users mapping mirror code state).mapping did = 1) ∧
    (∀ c, (p0_callback env o tickets users mapping mirror code state).credential = some c →
      c.uid = o.newDocId ∧
      (p0_callback env o tickets users mapping mirror code state).users =
        users ++ [(o.newDocId, p0_freshMerge did
          (jsString ur.usernameField ++ "#" ++ jsString ur.discriminatorField)
          (avatarUrlFor did ur.avatarField))] ∧
      (p0_callback env o tickets users mapping mirror code state).mapping = mapping) := by
  constructor
  · intro c hmw hc
    obtain ⟨s2, t, ur2, tr, hs2, hse, hcode, hget, hused, htr, htrok, hur2, hurok,
      hw, hm, hclaim, htick, hmap, hresp, hfs, hfn⟩ :=
      p1_callback_success env o tickets users mapping mirror code state c hc
    have hu : ur2 = ur := Option.some.inj (hur2.symm.trans hur)
    rw [hu] at hfn hmap
    have hj : jsString ur.idField = did := by rw [hid]; rfl
    rw [hj] at hfn hmap
    obtain ⟨huid, husers⟩ := hfn hfind
    refine ⟨huid, ?_, ?_, ?_⟩
    · rw [husers, alSet_fresh users o.newDocId _ hfresh]
    · rw [hmap hmw, alGet_alSet_self, huid]
    · rw [hmap hmw, countKey_alSet mapping did _ hkey]
  · intro c hc
    obtain ⟨s2, t, ur2, did2, tr, hs2, hse, hcode, hget, hused, htr, hur2, hid2,
      hw, hm, hclaim, htick, hmap, hresp, hfs, hfn⟩ :=
      p0_callback_success env o tickets users mapping mirror code state c hc
    have hu : ur2 = ur := Option.some.inj (hur2.symm.trans hur)
    rw [hu] at hfn hid2
    have hd : did2 = did := Option.some.inj (hid2.symm.trans hid)
    rw [hd] at hfn
    obtain ⟨huid, husers⟩ := hfn hfind
    refine ⟨huid, ?_, hmap⟩
    rw [husers, alSet_fresh users o.newDocId _ hfresh]

/-- Claim C5 witness: a concrete successful run of the nonce-store
variant against an empty user store creates exactly the one new
record and exactly one mapping entry for the fetched external id. -/
theorem c5_new_user_created_witness :
    (p1_callback env0 oracle0 [("s1", ticket0)] [] [] []
      (some "c") (some "s1")).users =
      [("u1", newDiscordUser "200000000000000002" (some "alice")
        (avatarUrlFor "200000000000000002" (some "abc")) 1000)] ∧
    countKey (p1_callback env0 oracle0 [("s1", ticket0)] [] [] []
      (some "c") (some "s1")).mapping "200000000000000002" = 1 := by
  have h := (c5_new_user_created env0 oracle0 [("s1", ticket0)] [] [] []
    (some "c") (some "s1") urOK "200000000000000002" rfl rfl (by decide)
    (by decide) (by decide)).1 ⟨"u1", some "200000000000000002"⟩ rfl (by decide)
  exact ⟨h.2.1, h.2.2.2⟩

/-- Claim C6 counterexample: the ESM variant start handler consults no
clock: an unused ticket created at time 0 is accepted and redirected
to the authorize endpoint at a time far beyond the 15 minute window. -/
theorem c6_counterexample :
    p0_start env0 1000000000 [("s1", ticket0)] (some "s1") =
      .redirect (p0_authUrl env0 "s1") := by
  decide

/-- Claim C6 (amended): the nonce-store variant start handler rejects
with status 400 any request whose ticket is older than the 15 minute
expiry window even when the used flag is false; the ESM variant start
handler checks only existence and the used flag and performs no age
check. -/
theorem c6_expired_rejected (env : Env) (now : Int) (tickets : TicketStore)
    (s : String) (t : LinkTicket)
    (hs : (s == "") = false)
    (hget : alGet tickets s = some t)
    (hold : 15 * 60 * 1000 < now - t.createdAt) :
    p1_start env now tickets (some s) =
      .status 400 "State expired or already used" := by
  unfold p1_start
  have h1 : jsTruthy (some s) = true := by simp [jsTruthy, hs]
  have h2 : (t.used || decide (15 * 60 * 1000 < now - t.createdAt)) = true := by
    simp only [Bool.or_eq_true, decide_eq_true_eq]
    exact Or.inr (by omega)
  simp only [h1, Bool.not_true, Bool.false_eq_true, if_false, Option.getD_some,
    hget, h2, if_true]

/-- Claim C6 witness: a concrete unused ticket created at time 0 is
rejected by the nonce-store start handler one millisecond past the
window. -/
theorem c6_expired_rejected_witness :
    p1_start env0 900001 [("s1", ticket0)] (some "s1") =
      .status 400 "State expired or already used" :=
  c6_expired_rejected env0 900001 [("s1", ticket0)] "s1" ticket0
    (by decide) (by decide) (by decide)

/-- Claim C7 counterexample: in the ESM variant a token exchange that
returns a non-success response is not routed to the error
destination: the unchecked flow continues and, when the identity fetch
replies successfully, completes with a credential and the success
redirect. -/
theorem c7_counterexample :
    (p0_callback env0 oracleBadTok [("s1", ticket0)] [] [] []
      (some "c") (some "s1")).response ≠ .redirect env0.errorUrl ∧
    (p0_callback env0 oracleBadTok [("s1", ticket0)] [] [] []
      (some "c") (some "s1")).credential.isSome = true := by
  decide

/-- Claim C7 (amended): for a callback with code and state present and
a live ticket, the nonce-store variant turns every failure of the
token exchange (rejected or non-success), of the identity fetch
(rejected or non-success), of the user record write or of the ticket
update into a redirect to the configured error destination with no
credential issued; the ESM variant guarantees this only for thrown
failures, a non-success token-exchange response not being treated as a
failure there. -/
theorem c7_failures_redirect (env : Env) (o : Oracle) (tickets : TicketStore)
    (users : UserStore) (mapping : MappingStore) (mirror : MirrorStore)
    (code : Option String) (s : String) (t : LinkTicket)
    (hcode : jsTruthy code = true) (hs : (s == "") = false)
    (hget : alGet tickets s = some t) (hused : t.used = false) :
    (oracleStepFails o = true →
      (p1_callback env o tickets users mapping mirror code (some s)).response =
        .redirect env.errorUrl ∧
      (p1_callback env o tickets users mapping mirror code (some s)).credential = none) ∧
    (p0_stepThrows o = true →
      (p0_callback env o tickets users mapping mirror code (some s)).response =
        .redirect env.errorUrl ∧
      (p0_callback env o tickets users mapping mirror code (some s)).credential = none) :=
  ⟨fun h => p1_step_failure_redirect env o tickets users mapping mirror code s t
      hcode hs hget hused h,
   fun h => p0_step_throw_redirect env o tickets users mapping mirror code s t
      hcode hs hget hused h⟩

/-- Claim C7 witness: a concrete nonce-store run with a failing token
exchange redirects to the error destination without a credential. -/
theorem c7_failures_redirect_witness :
    (p1_callback env0 oracleBadTok [("s1", ticket0)] [] [] []
      (some "c") (some "s1")).response = .redirect env0.errorUrl ∧
    (p1_callback env0 oracleBadTok [("s1", ticket0)] [] [] []
      (some "c") (some "s1")).credential = none :=
  (c7_failures_redirect env0 oracleBadTok [("s1", ticket0)] [] [] []
    (some "c") "s1" ticket0 (by decide) (by decide) (by decide) (by decide)).1
    (by decide)

/-- Oracle for a flow whose Firestore user write fails while all
other calls succeed. -/
def oracleNoUserWrite : Oracle := ⟨some trOK, some urOK, false, true, true, "u1", 1000⟩

/-- Claim C8 counterexample: in the nonce-store variant the Realtime
Database mapping write happens inside an inner try/catch whose errors
are swallowed: a run whose mapping upsert does not complete still
issues a credential, leaving the mapping store untouched. -/
theorem c8_counterexample :
    (p1_callback env0 oracleNoMap [("s1", ticket0)] [] [] []
      (some "c") (some "s1")).credential.isSome = true ∧
    (p1_callback env0 oracleNoMap [("s1", ticket0)] [] [] []
      (some "c") (some "s1")).mapping = [] := by
  decide

/-- Claim C8 (amended): the nonce-store callback issues a credential
only when the user record write and the ticket mark-used update both
complete, and a failure of either is turned into the error redirect
with no credential; a failure of the mapping-store write, however, is
swallowed and does not block issuance. -/
theorem c8_persistence_gating (env : Env) (o : Oracle) (tickets : TicketStore)
    (users : UserStore) (mapping : MappingStore) (mirror : MirrorStore)
    (code state : Option String) :
    (∀ c, (p1_callback env o tickets users mapping mirror code state).credential = some c →
      o.userWriteOk = true ∧ o.markUsedOk = true) ∧
    (∀ s t, state = some s → (s == "") = false → jsTruthy code = true →
      alGet tickets s = some t → t.used = false →
      (o.userWriteOk = false ∨ o.markUsedOk = false) →
      (p1_callback env o tickets users mapping mirror code state).response =
        .redirect env.errorUrl ∧
      (p1_callback env o tickets users mapping mirror code state).credential = none) := by
  constructor
  · intro c hc
    obtain ⟨s2, t, ur2, tr, hs2, hse, hcode, hget, hused, htr, htrok, hur2, hurok,
      hw, hm, hclaim, htick, hmap, hresp, hfs, hfn⟩ :=
      p1_callback_success env o tickets users mapping mirror code state c hc
    exact ⟨hw, hm⟩
  · intro s t hstate hs hcode hget hused hd
    subst hstate
    have hfail : oracleStepFails o = true := by
      unfold oracleStepFails
      rcases hd with h | h <;> simp [h]
    exact p1_step_failure_redirect env o tickets users mapping mirror code s t
      hcode hs hget hused hfail

/-- Claim C8 witness: a concrete run whose user record write fails is
redirected to the error destination with no credential. -/
theorem c8_persistence_gating_witness :
    (p1_callback env0 oracleNoUserWrite [("s1", ticket0)] [] [] []
      (some "c") (some "s1")).response = .redirect env0.errorUrl ∧
    (p1_callback env0 oracleNoUserWrite [("s1", ticket0)] [] [] []
      (some "c") (some "s1")).credential = none :=
  (c8_persistence_gating env0 oracleNoUserWrite [("s1", ticket0)] [] [] []
    (some "c") (some "s1")).2 "s1" ticket0 rfl (by decide) (by decide)
    (by decide) (by decide) (Or.inl rfl)

/-- Claim C9: a successful reconcile against an existing record leaves
every field other than the three mirrored external-profile fields
unchanged: the update applied by the nonce-store and format-only
variants and the merge applied by the ESM variant preserve
displayName, username and joined; the format-only callback rewrites
the found entry with exactly that update; and an upsert of one entry
leaves every other entry of the store unchanged. -/
theorem c9_frame (env : Env) (o : Oracle) (tickets : TicketStore)
    (users : UserStore) (mapping : MappingStore) (mirror : MirrorStore)
    (code state : Option String) (ur : UserResp) (did : String)
    (pr : String × AppUser) (u : AppUser) (uname : Option String)
    (unameDisc : String) (av : Option String)
    (hur : o.userResp = some ur) (hid : ur.idField = some did)
    (hfind : users.find? (fun p => p.2.discordId == some did) = some pr) :
    ((applyDiscordUpdate u did uname av).displayName = u.displayName ∧
     (applyDiscordUpdate u did uname av).username = u.username ∧
     (applyDiscordUpdate u did uname av).joined = u.joined) ∧
    ((p0_applyMerge u did unameDisc av).displayName = u.displayName ∧
     (p0_applyMerge u did unameDisc av).username = u.username ∧
     (p0_applyMerge u did unameDisc av).joined = u.joined) ∧
    (∀ c, (idx_callback env o tickets users mapping mirror code state).credential = some c →
      (idx_callback env o tickets users mapping mirror code state).users =
        alSet users pr.1 (applyDiscordUpdate pr.2 did ur.usernameField
          (avatarUrlFor did ur.avatarField))) ∧
    (∀ k2 v, k2 ≠ pr.1 → alGet (alSet users pr.1 v) k2 = alGet users k2) := by
  refine ⟨⟨rfl, rfl, rfl⟩, ⟨rfl, rfl, rfl⟩, ?_, ?_⟩
  · intro c hc
    obtain ⟨s2, ur2, tr, hs2, hse, hcode, htr, htrok, hur2, hurok,
      hw, hmw, hsnow, hclaim, htick, hmap, hmir, hresp, hfs, hfn⟩ :=
      idx_callback_success env o tickets users mapping mirror code state c hc
    have hu : ur2 = ur := Option.some.inj (hur2.symm.trans hur)
    rw [hu] at hfs
    have hj : jsString ur.idField = did := by rw [hid]; rfl
    rw [hj] at hfs
    exact (hfs pr hfind).2
  · intro k2 v hne
    exact alGet_alSet_ne users pr.1 k2 v hne

/-- Claim C9 witness: a concrete successful format-only run against a
store whose record already carries the fetched external id rewrites
exactly that entry, and the update preserves the pre-existing joined
field. -/
theorem c9_frame_witness :
    (idx_callback env0 oracle0 [] [("u7", user1)] [] []
      (some "c") (some "abc")).users =
      alSet [("u7", user1)] "u7" (applyDiscordUpdate user1 "200000000000000002"
        (some "alice") (avatarUrlFor "200000000000000002" (some "abc"))) ∧
    (applyDiscordUpdate user1 "200000000000000002" (some "alice") none).joined =
      user1.joined := by
  have h := c9_frame env0 oracle0 [] [("u7", user1)] [] [] (some "c") (some "abc")
    urOK "200000000000000002" ("u7", user1) user1 (some "alice") "x" none
    rfl rfl (by decide)
  exact ⟨h.2.2.1 ⟨"u7", some "200000000000000002"⟩ (by decide), h.1.2.2⟩

/-- An identity fetch whose body id fails the snowflake format. -/
def urShortId : UserResp := ⟨true, some "12", some "carol", some "3", none⟩

/-- Oracle for a successful flow fetching the short-id identity. -/
def oracleShortId : Oracle := ⟨some trOK, some urShortId, true, true, true, "u1", 1000⟩

/-- Claim C10: in the format-only callback a state that fails the
snowflake format check is not rejected for that reason: the id fetched
from the identity endpoint is used instead as the mapping key and
token claim, and a 400 response arises only when that fetched id also
fails the format check. -/
theorem c10_state_fallback (env : Env) (o : Oracle) (tickets : TicketStore)
    (users : UserStore) (mapping : MappingStore) (mirror : MirrorStore)
    (code : Option String) (s : String) (ur : UserResp) (tr : TokenResp)
    (hcode : jsTruthy code = true) (hs : (s == "") = false)
    (hsnow : isSnowflake (jsTrim s) = false)
    (htr : o.tokenResp = some tr) (htrok : tr.ok = true)
    (hur : o.userResp = some ur) (hurok : ur.ok = true)
    (hw : o.userWriteOk = true) :
    (isSnowflake (ur.idField.getD "") = false →
      (idx_callback env o tickets users mapping mirror code (some s)).response =
        .status 400 "Missing discord id") ∧
    (isSnowflake (ur.idField.getD "") = true → o.mappingWriteOk = true →
      ∃ uid,
        (idx_callback env o tickets users mapping mirror code (some s)).credential =
          some ⟨uid, some (ur.idField.getD "")⟩ ∧
        alGet (idx_callback env o tickets users mapping mirror code (some s)).mapping
          (ur.idField.getD "") = some ⟨uid, o.now⟩ ∧
        (idx_callback env o tickets users mapping mirror code (some s)).response =
          .redirect (env.successUrl ++ "?customToken=" ++
            tokenString ⟨uid, some (ur.idField.getD "")⟩)) := by
  have h2s : jsTruthy (some s) = true := by simp [jsTruthy, hs]
  have h1 : (jsTruthy code && jsTruthy (some s)) = true := by
    rw [hcode, h2s]
    rfl
  have hch : idx_chosenId (some s) ur = ur.idField.getD "" :=
    idx_chosenId_eq (some s) ur (Or.inl hsnow)
  constructor
  · intro hbad
    unfold idx_callback idx_afterUserWrite
    simp [h1, htr, htrok, hur, hurok, hw, hch, hbad]
  · intro hgood hmw
    unfold idx_callback idx_afterUserWrite
    simp only [h1, Bool.not_true, Bool.false_eq_true, if_false, htr, htrok,
      hur, hurok, hw, hch, hgood, hmw, if_true]
    cases hfound : users.find? (fun p => p.2.discordId == some (jsString ur.idField)) with
    | some pr =>
      simp only [hfound]
      exact ⟨pr.1, rfl, by rw [alGet_alSet_self], rfl⟩
    | none =>
      simp only [hfound]
      exact ⟨o.newDocId, rfl, by rw [alGet_alSet_self], rfl⟩

/-- Claim C10 witness: with the malformed state abc, a fetched
snowflake id completes the flow with that id as mapping key and claim,
while a fetched id that also fails the format check yields the 400
response. -/
theorem c10_state_fallback_witness :
    (idx_callback env0 oracle0 [] [] [] [] (some "c") (some "abc")).credential =
      some ⟨"u1", some "200000000000000002"⟩ ∧
    alGet (idx_callback env0 oracle0 [] [] [] [] (some "c")
      (some "abc")).mapping "200000000000000002" = some ⟨"u1", (1000 : Int)⟩ ∧
    (idx_callback env0 oracleShortId [] [] [] [] (some "c") (some "abc")).response =
      .status 400 "Missing discord id" := by
  obtain ⟨uid, hcred, hmap, hresp⟩ :=
    (c10_state_fallback env0 oracle0 [] [] [] [] (some "c") "abc" urOK trOK
      (by decide) (by decide) (by decide) rfl rfl rfl rfl rfl).2 (by decide) rfl
  have hbad := (c10_state_fallback env0 oracleShortId [] [] [] [] (some "c") "abc"
    urShortId trOK (by decide) (by decide) (by decide) rfl rfl rfl rfl rfl).1
    (by decide)
  have huid : uid = "u1" := by
    have h2 := hcred
    rw [show (idx_callback env0 oracle0 [] [] [] [] (some "c") (some "abc")).credential =
      some ⟨"u1", some "200000000000000002"⟩ from by decide] at h2
    exact (Credential.mk.injEq _ _ _ _).mp (Option.some.inj h2.symm) |>.1
  subst huid
  exact ⟨hcred, hmap, hbad⟩
